import Mathlib

/-!
# Verification of the train-passenger forecasting pipeline

Shallow embedding of `src/forecast.py` (linear-trend forecast of monthly
passenger counts per category).  Numeric cells are modelled over `ℚ`
(the program works on finite decimal data; `pd.to_numeric` coercion is
modelled as `Option ℚ`, `none` standing for NaN / unparseable).  Strings
are modelled as `List Char`.
-/

namespace Forecast

/-- A string of the source program, modelled as a list of characters. -/
abbrev Str := List Char

/-! ## Direction classification (`_classify_direction`) -/

/-- The four direction labels the program can return
(`"naik"`, `"turun"`, `"tetap"`, `"tidak diketahui"`). -/
inductive Direction where
  | naik
  | turun
  | tetap
  | tidakDiketahui
  deriving DecidableEq, Repr

/-- Tolerance used by `_classify_direction`:
`tol = max(0.005 * abs(last_actual), 10.0)`. -/
def tol (lastActual : ℚ) : ℚ := max (5 / 1000 * |lastActual|) 10

/-- Embedding of `_classify_direction(last_actual, next_pred)`.
A `none` argument stands for a NaN value (`pd.isna` true). -/
def classifyDirection (lastActual nextPred : Option ℚ) : Direction :=
  match lastActual, nextPred with
  | some la, some np =>
      if np > la + tol la then .naik
      else if np < la - tol la then .turun
      else .tetap
  | _, _ => .tidakDiketahui

/-! ## Forward projection (`_predict_future`) -/

/-- Embedding of `_predict_future(a, b, n, horizon)`:
`np.arange(n+1, n+horizon+1)` mapped through `t ↦ a + b*t`, i.e. the
list `[a + b*(n+1), …, a + b*(n+horizon)]`. -/
def predictFuture (a b : ℚ) (n horizon : ℕ) : List ℚ :=
  (List.range horizon).map (fun (k : ℕ) => a + b * ((n : ℚ) + (k : ℚ) + 1))

/-! ## Linear-trend fit (`_fit_linear_trend`)

`_fit_linear_trend` fits `y ~ a + b*t`, `t = 1..n`, with sklearn's
`LinearRegression`, which computes the ordinary-least-squares solution by
centering: `b = Σ(t-t̄)(y-ȳ) / Σ(t-t̄)²` (minimum-norm `b = 0` when the
denominator is zero), `a = ȳ - b*t̄`.  `r2_score(y, y_hat)` is
`1 - ss_res/ss_tot`, with the zero-denominator convention: when
`ss_tot = 0` it returns `1` if `ss_res = 0` and `0` otherwise.  The code
guards `r2 = 1.0` whenever `n < 2`. -/

/-- `i`-th count value of the series (series modelled as `List ℚ`). -/
def yval (y : List ℚ) (i : ℕ) : ℚ := y.getD i 0

/-- Mean of the regression index `t = 1..n`. -/
def tbar (n : ℕ) : ℚ := (∑ i in Finset.range n, ((i : ℚ) + 1)) / n

/-- Mean of the count values. -/
def ybar (y : List ℚ) : ℚ := (∑ i in Finset.range y.length, yval y i) / y.length

/-- Centered sum `Σ (t_i - t̄)²` over `t = 1..n`. -/
def sTT (n : ℕ) : ℚ := ∑ i in Finset.range n, ((i : ℚ) + 1 - tbar n) ^ 2

/-- Centered sum `Σ (t_i - t̄)(y_i - ȳ)`. -/
def sTY (y : List ℚ) : ℚ :=
  ∑ i in Finset.range y.length, ((i : ℚ) + 1 - tbar y.length) * (yval y i - ybar y)

/-- OLS slope of `_fit_linear_trend` (sklearn `LinearRegression.coef_[0]`). -/
def slope (y : List ℚ) : ℚ :=
  if sTT y.length = 0 then 0 else sTY y / sTT y.length

/-- OLS intercept of `_fit_linear_trend` (sklearn `LinearRegression.intercept_`). -/
def intercept (y : List ℚ) : ℚ := ybar y - slope y * tbar y.length

/-- Residual sum of squares of the fitted line against the data. -/
def ssRes (y : List ℚ) : ℚ :=
  ∑ i in Finset.range y.length,
    (yval y i - (intercept y + slope y * ((i : ℚ) + 1))) ^ 2

/-- Total sum of squares about the mean. -/
def ssTot (y : List ℚ) : ℚ :=
  ∑ i in Finset.range y.length, (yval y i - ybar y) ^ 2

/-- `r2 = r2_score(y, y_hat) if n >= 2 else 1.0` (line 210), with
sklearn's `r2_score` zero-denominator convention. -/
def r2 (y : List ℚ) : ℚ :=
  if 2 ≤ y.length then
    if ssTot y = 0 then (if ssRes y = 0 then 1 else 0)
    else 1 - ssRes y / ssTot y
  else 1

/-- Embedding of `_fit_linear_trend(y)`: returns `(intercept, slope, r2)`.
(The program only calls it with `n ≥ 2`; the model totalises the `n < 2`
cases by the same formulas, with `0/0 = 0` in `ℚ`.) -/
def fitLinearTrend (y : List ℚ) : ℚ × ℚ × ℚ := (intercept y, slope y, r2 y)

/-- The per-category fit step of `fit_trend_and_forecast` (lines 282-286):
`if n < 2: a, b, r2 = (float(y.mean()) if n else 0.0), 0.0, 1.0`
`else: a, b, r2 = _fit_linear_trend(y)`. -/
def fitTrend (y : List ℚ) : ℚ × ℚ × ℚ :=
  if y.length < 2 then
    ((if y.length = 0 then 0 else y.sum / y.length), 0, 1)
  else fitLinearTrend y

/-! ## Year resolution (`infer_year_from_filename`, `_normalize_years_for_inputs`) -/

/-- `os.path.basename`: the part of the path after the last `/`. -/
def basename (p : Str) : Str := ((p.reverse.takeWhile (fun c => c ≠ '/')).reverse)

/-- Leftmost match of the regex `20\d{2}` in a character list
(`re.search(r"(20\d{2})", base)`), as the parsed integer. -/
def findYear : Str → Option ℤ
  | [] => none
  | c0 :: rest =>
    match rest with
    | c1 :: c2 :: c3 :: _ =>
      if c0 = '2' ∧ c1 = '0' ∧ c2.isDigit ∧ c3.isDigit then
        some (2000 + 10 * ((c2.toNat : ℤ) - 48) + ((c3.toNat : ℤ) - 48))
      else findYear rest
    | _ => none

/-- Embedding of `infer_year_from_filename(path)`: search the basename for
`20\d{2}`, and keep the parsed year only if `1900 <= y <= 2100`. -/
def inferYearFromFilename (path : Str) : Option ℤ :=
  match findYear (basename path) with
  | some y => if 1900 ≤ y ∧ y ≤ 2100 then some y else none
  | none => none

/-- The explicit-years lookup of `_normalize_years_for_inputs` for source
index `i`: broadcast a one-element list, otherwise positional
(`years[i]` when `i < len(years)`, nothing when the list is exhausted). -/
def explicitYearAt (i : ℕ) (years : Option (List ℤ)) : Option ℤ :=
  match years with
  | none => none
  | some ys => if ys.length = 1 then ys[0]? else ys[i]?

/-- Year resolution for one source (`_normalize_years_for_inputs` loop body):
explicit year, else inference from the file name, else the default year. -/
def resolveYear (i : ℕ) (p : Str) (years : Option (List ℤ))
    (defaultYear : Option ℤ) : Option ℤ :=
  match explicitYearAt i years with
  | some y => some y
  | none =>
    match inferYearFromFilename p with
    | some y => some y
    | none => defaultYear

/-- Recursion of `_normalize_years_for_inputs` over the paths.  The
`ValueError` raised when no year is determinable interpolates the
offending path into its message; the error is modelled by that path. -/
def normalizeYearsGo (years : Option (List ℤ)) (defaultYear : Option ℤ) :
    ℕ → List Str → Except Str (List ℤ)
  | _, [] => .ok []
  | i, p :: ps =>
    match resolveYear i p years defaultYear with
    | none => .error p
    | some y =>
      match normalizeYearsGo years defaultYear (i + 1) ps with
      | .error e => .error e
      | .ok ys => .ok (y :: ys)

/-- Embedding of `_normalize_years_for_inputs(paths, years, default_year)`. -/
def normalizeYearsForInputs (paths : List Str) (years : Option (List ℤ))
    (defaultYear : Option ℤ) : Except Str (List ℤ) :=
  normalizeYearsGo years defaultYear 0 paths

/-! ## Table loader (`load_and_transform`)

A CSV already read by `pd.read_csv` is modelled as a `WideTable`: the
column names as read, and one row per category holding the category cell
and the value cells aligned with the remaining columns.  Value cells are
modelled after `pd.to_numeric(..., errors="coerce")`: `some q` for a
numeric cell, `none` for an unparseable or missing one. -/

/-- Decidable equality for `Except` results (for evaluating the model on
concrete inputs). -/
instance {ε α : Type} [DecidableEq ε] [DecidableEq α] :
    DecidableEq (Except ε α) := fun x y =>
  match x, y with
  | .ok a, .ok b =>
    decidable_of_iff (a = b) ⟨fun h => by rw [h], fun h => by cases h; rfl⟩
  | .error e, .error f =>
    decidable_of_iff (e = f) ⟨fun h => by rw [h], fun h => by cases h; rfl⟩
  | .ok _, .error _ => .isFalse fun h => by cases h
  | .error _, .ok _ => .isFalse fun h => by cases h

/-- One wide-format row: category cell plus the value cells aligned with
`header.drop 1`. -/
structure WideRow where
  cat : Str
  cells : List (Option ℚ)
  deriving DecidableEq, Repr

/-- A wide-format table as read from a CSV source. -/
structure WideTable where
  header : List Str
  rows : List WideRow
  deriving DecidableEq, Repr

/-- One long-format row (after melt / numeric coercion / month mapping /
date building, before `dropna`): `none` fields stand for NaN / NaT. -/
structure LongRow where
  tipe : Str
  bulan : Str
  jumlah : Option ℚ
  monthNum : Option ℕ
  tanggal : Option (ℤ × ℕ)
  deriving DecidableEq, Repr

/-- The twelve canonical Indonesian month names (`INDO_MONTHS`). -/
def INDO_MONTHS : List Str :=
  ["Januari".toList, "Februari".toList, "Maret".toList, "April".toList,
   "Mei".toList, "Juni".toList, "Juli".toList, "Agustus".toList,
   "September".toList, "Oktober".toList, "November".toList, "Desember".toList]

/-- Python `str.strip()` on both ends (whitespace trim). -/
def pyStrip (s : Str) : Str :=
  ((s.dropWhile Char.isWhitespace).reverse.dropWhile Char.isWhitespace).reverse

/-- Embedding of `_strip_bom_and_clean`: remove BOM characters, then strip. -/
def stripBomAndClean (s : Str) : Str :=
  pyStrip (s.filter (fun c => c ≠ '\uFEFF'))

/-- `month_map`: month name to 1-based calendar index
(`long_df["bulan"].map(month_map)`; `none` for an unknown name). -/
def monthNumOf (b : Str) : Option ℕ :=
  (INDO_MONTHS.findIdx? (fun m => m == b)).map (fun i => i + 1)

/-- The melted value cell for month column `b` of one row: pandas `melt`
extracts the cell by column name.  The columns whose cleaned name
lower-cases to `"tahunan"` are dropped beforehand (`drop(columns=...)`),
so they are excluded from the name lookup. -/
def cellFor (tailCols : List Str) (cells : List (Option ℚ)) (b : Str) : Option ℚ :=
  match ((tailCols.zip cells).filter
      (fun pr => pr.1.map Char.toLower != "tahunan".toList)).find?
      (fun pr => pr.1 == b) with
  | some pr => pr.2
  | none => none

/-- One melted long row for category row `r` and month column `b`
(`pd.to_datetime({"year": year, "month": month_num, "day": 1})` is valid
exactly for months `1..12`). -/
def meltRow (tailCols : List Str) (year : ℤ) (r : WideRow) (b : Str) : LongRow :=
  let mn := monthNumOf b
  { tipe := r.cat
    bulan := b
    jumlah := cellFor tailCols r.cells b
    monthNum := mn
    tanggal := mn.bind (fun m => if 1 ≤ m ∧ m ≤ 12 then some (year, m) else none) }

/-- `SchemaError` message for fewer than two columns (line 82). -/
def msgMinCols : Str := "CSV tidak memiliki format yang diharapkan (minimal 2 kolom).".toList

/-- `SchemaError` message for zero recognized month columns (line 91). -/
def msgNoMonths : Str := "Tidak ditemukan kolom bulan (Januari..Desember) dalam CSV.".toList

/-- Error message for an empty input list (line 186). -/
def msgEmptyInputs : Str := "Daftar input kosong.".toList

/-- Sort key of `sort_values(["tipe_kendaraan", "month_num"])`:
lexicographic on (category, month index). -/
def rowKey1 (r : LongRow) : Str ×ₗ ℕ := toLex (r.tipe, r.monthNum.getD 0)

/-- The single-source sort order: ascending by (category, month index). -/
def rowLE1 (r s : LongRow) : Prop := rowKey1 r ≤ rowKey1 s

instance : DecidableRel rowLE1 :=
  fun r s => decidable_of_iff (rowKey1 r ≤ rowKey1 s) Iff.rfl

/-- Chronological key of a built date: months `1..12` make
`12 * year + month` order-isomorphic to timestamp order. -/
def dateKey (r : LongRow) : ℤ :=
  match r.tanggal with
  | some (y, m) => 12 * y + m
  | none => 0

/-- Sort key of `sort_values(["tipe_kendaraan", "tanggal"])`:
lexicographic on (category, date). -/
def rowKey2 (r : LongRow) : Str ×ₗ ℤ := toLex (r.tipe, dateKey r)

/-- The merged-output sort order: ascending by (category, date). -/
def rowLE2 (r s : LongRow) : Prop := rowKey2 r ≤ rowKey2 s

instance : DecidableRel rowLE2 :=
  fun r s => decidable_of_iff (rowKey2 r ≤ rowKey2 s) Iff.rfl

instance : IsTotal LongRow rowLE1 := ⟨fun a b => le_total (rowKey1 a) (rowKey1 b)⟩

instance : IsTrans LongRow rowLE1 := ⟨fun _ _ _ h h' => le_trans h h'⟩

instance : IsTotal LongRow rowLE2 := ⟨fun a b => le_total (rowKey2 a) (rowKey2 b)⟩

instance : IsTrans LongRow rowLE2 := ⟨fun _ _ _ h h' => le_trans h h'⟩

/-- `dropna(subset=["jumlah", "month_num", "tanggal"])` row predicate. -/
def rowComplete (r : LongRow) : Bool :=
  r.jumlah.isSome && r.monthNum.isSome && r.tanggal.isSome

/-- The column names after `_strip_bom_and_clean` is applied
(`df.columns = [_strip_bom_and_clean(c) for c in df.columns]`). -/
def cleanedHeader (table : WideTable) : List Str :=
  table.header.map stripBomAndClean

/-- `bulan_kolom = [b for b in INDO_MONTHS if b in df.columns]`.  After the
first column is renamed to `tipe_kendaraan`, a month column can only be
found among the remaining columns. -/
def recognizedMonths (table : WideTable) : List Str :=
  INDO_MONTHS.filter (fun b => ((cleanedHeader table).drop 1).contains b)

/-- Embedding of `load_and_transform(input_path, year)`.  `table` is the
wide table read from `input_path` (the path itself only feeds the file
read; the error messages are fixed strings). -/
def loadAndTransform (_path : Str) (table : WideTable) (year : ℤ) :
    Except Str (List LongRow) :=
  if (cleanedHeader table).length < 2 then .error msgMinCols
  else if (recognizedMonths table).isEmpty then .error msgNoMonths
  else
    let tailCols := (cleanedHeader table).drop 1
    let melted := (recognizedMonths table).flatMap
      (fun b => table.rows.map (fun r => meltRow tailCols year r b))
    let kept := melted.filter rowComplete
    .ok (kept.insertionSort rowLE1)

/-- Loading loop of `load_and_transform_multi`: each source with its
resolved year, first raised error propagates. -/
def loadFrames : List ((Str × WideTable) × ℤ) → Except Str (List LongRow)
  | [] => .ok []
  | (pt, y) :: rest =>
    match loadAndTransform pt.1 pt.2 y with
    | .error e => .error e
    | .ok rs =>
      match loadFrames rest with
      | .error e => .error e
      | .ok more => .ok (rs ++ more)

/-- Embedding of `load_and_transform_multi(paths, years, default_year)`:
resolve a year per source, load each, concatenate, and re-sort globally
ascending by (category, date). -/
def loadAndTransformMulti (inputs : List (Str × WideTable))
    (years : Option (List ℤ)) (defaultYear : Option ℤ) :
    Except Str (List LongRow) :=
  if inputs.isEmpty then .error msgEmptyInputs
  else
    match normalizeYearsForInputs (inputs.map Prod.fst) years defaultYear with
    | .error e => .error e
    | .ok ys =>
      match loadFrames (inputs.zip ys) with
      | .error e => .error e
      | .ok rows => .ok (rows.insertionSort rowLE2)

/-! ## Theorems -/

/-- Element `j` (0-based) of the projection is `a + b*(n + j + 1)`,
i.e. `projected_value(k) = a + b*(n + k)` for the 1-based step `k = j+1`. -/
lemma predictFuture_getD (a b : ℚ) (n H j : ℕ) (hj : j < H) :
    (predictFuture a b n H).getD j 0 = a + b * ((n : ℚ) + (j : ℚ) + 1) := by
  unfold predictFuture
  rw [List.getD_eq_getElem?_getD, List.getElem?_map, List.getElem?_range hj]
  rfl

/-- C1: for the series `[100, 110, 120, 130]` fitted against `t = 1..4`
the trend fit yields intercept `90` and slope `10`, the 1-step projection
equals `90 + 10*5 = 140`, the tolerance against `last_actual = 130` is
`max(0.005*130, 10) = 10`, and the direction classifies as flat
(`tetap`), because `140 > 130 + 10` is not strictly true. -/
theorem c1_scenario_flat :
    fitTrend [100, 110, 120, 130] = (90, 10, 1) ∧
    predictFuture 90 10 4 1 = [140] ∧
    tol 130 = 10 ∧
    classifyDirection (some 130) (some 140) = .tetap := by
  refine ⟨?_, ?_, ?_, ?_⟩
  · norm_num [fitTrend, fitLinearTrend, intercept, Forecast.slope, r2, ssRes,
      ssTot, sTY, sTT, tbar, ybar, yval, Finset.sum_range_succ]
  · norm_num [predictFuture, List.range_succ]
  · norm_num [tol]
  · norm_num [classifyDirection, tol]

/-- C2: on defined values, `_classify_direction` returns `naik` iff
`pred > last + tol`, `turun` iff `pred < last - tol`, `tetap` otherwise,
with `tol = max(0.005*|last|, 10)`; the boundary `pred = last + tol` is
`tetap`, and a missing value on either side gives `tidak diketahui`. -/
theorem c2_classify_iff :
    (∀ last pred : ℚ,
      (classifyDirection (some last) (some pred) = .naik ↔ last + tol last < pred) ∧
      (classifyDirection (some last) (some pred) = .turun ↔ pred < last - tol last) ∧
      (classifyDirection (some last) (some pred) = .tetap ↔
        pred ≤ last + tol last ∧ last - tol last ≤ pred) ∧
      classifyDirection (some last) (some (last + tol last)) = .tetap ∧
      tol last = max (5 / 1000 * |last|) 10) ∧
    (∀ x : Option ℚ, classifyDirection none x = .tidakDiketahui ∧
      classifyDirection x none = .tidakDiketahui) := by
  constructor
  · intro last pred
    have htol : (10 : ℚ) ≤ tol last := le_max_right _ _
    refine ⟨?_, ?_, ?_, ?_, rfl⟩
    · simp only [classifyDirection]
      split_ifs with h1 h2 <;> simpa using h1
    · simp only [classifyDirection]
      split_ifs with h1 h2
      · have hno : ¬ (pred < last - tol last) := by linarith
        simpa using hno
      · simpa using h2
      · simpa using h2
    · simp only [classifyDirection]
      split_ifs with h1 h2
      · constructor
        · intro hcon
          exact hcon.elim
        · rintro ⟨ha, _⟩
          exact absurd h1 (not_lt.mpr ha)
      · constructor
        · intro hcon
          exact hcon.elim
        · rintro ⟨_, hb⟩
          exact absurd h2 (not_lt.mpr hb)
      · exact ⟨fun _ => ⟨not_lt.mp h1, not_lt.mp h2⟩, fun _ => rfl⟩
    · simp only [classifyDirection]
      split_ifs with h1 h2
      · exact absurd h1 (lt_irrefl _)
      · exact absurd h2 (by linarith)
      · rfl
  · intro x
    cases x <;> exact ⟨rfl, rfl⟩

/-- C4: a fit over zero observations yields `a = 0, b = 0, r2 = 1`; a fit
over one observation yields `a =` that value, `b = 0, r2 = 1`
(the `n < 2` branch of `fit_trend_and_forecast`). -/
theorem c4_degenerate_fit :
    fitTrend [] = (0, 0, 1) ∧ ∀ v : ℚ, fitTrend [v] = (v, 0, 1) := by
  constructor
  · norm_num [fitTrend]
  · intro v
    norm_num [fitTrend]

/-- C5: the forward projection is a line of constant step `b`:
for a horizon `H ≥ 2` and any two consecutive steps, the projected values
differ by exactly `b`, and step `k+1` (0-based index `k`) projects
`a + b*(n + k + 1)`. -/
theorem c5_constant_step (a b : ℚ) (n H k : ℕ) (hH : 2 ≤ H) (hk : k + 1 < H) :
    (predictFuture a b n H).getD (k + 1) 0 - (predictFuture a b n H).getD k 0 = b ∧
    (predictFuture a b n H).getD k 0 = a + b * ((n : ℚ) + (k : ℚ) + 1) := by
  have hk' : k < H := Nat.lt_of_succ_lt hk
  rw [predictFuture_getD a b n H (k + 1) hk, predictFuture_getD a b n H k hk']
  constructor
  · push_cast
    ring
  · rfl

/-- The index variance `Σ (t_i - t̄)²` is positive once `n ≥ 2`
(`t = 1` and `t = 2` cannot both equal the mean). -/
lemma sTT_pos (n : ℕ) (hn : 2 ≤ n) : 0 < sTT n := by
  have hnonneg : 0 ≤ sTT n := Finset.sum_nonneg (fun i _ => sq_nonneg _)
  rcases eq_or_lt_of_le hnonneg with h0 | h
  · exfalso
    have hall := (Finset.sum_eq_zero_iff_of_nonneg
      (fun i (_ : i ∈ Finset.range n) => sq_nonneg ((i : ℚ) + 1 - tbar n))).mp h0.symm
    have h1 := hall 0 (Finset.mem_range.mpr (by omega))
    have h2 := hall 1 (Finset.mem_range.mpr (by omega))
    have e1 : ((0 : ℕ) : ℚ) + 1 - tbar n = 0 := by
      exact pow_eq_zero_iff (two_ne_zero) |>.mp h1
    have e2 : ((1 : ℕ) : ℚ) + 1 - tbar n = 0 := by
      exact pow_eq_zero_iff (two_ne_zero) |>.mp h2
    push_cast at e1 e2
    linarith
  · exact h

/-- Key OLS identity: at the fitted slope and intercept,
`ss_res = ss_tot - sTY² / sTT`. -/
lemma ssRes_identity (y : List ℚ) (h : sTT y.length ≠ 0) :
    ssRes y = ssTot y - sTY y ^ 2 / sTT y.length := by
  have hb : Forecast.slope y = sTY y / sTT y.length := by
    rw [Forecast.slope, if_neg h]
  have hstep : ∀ i ∈ Finset.range y.length,
      (yval y i - (intercept y + Forecast.slope y * ((i : ℚ) + 1))) ^ 2 =
        (yval y i - ybar y) ^ 2
          - (2 * Forecast.slope y) *
              (((i : ℚ) + 1 - tbar y.length) * (yval y i - ybar y))
          + (Forecast.slope y * Forecast.slope y) *
              (((i : ℚ) + 1 - tbar y.length) ^ 2) := by
    intro i _
    rw [intercept]
    ring
  rw [ssRes, Finset.sum_congr rfl hstep, Finset.sum_add_distrib,
    Finset.sum_sub_distrib, ← Finset.mul_sum, ← Finset.mul_sum,
    ← sTY, ← sTT, ← ssTot, hb]
  field_simp
  ring

/-- C3: the `r²` produced by the fit is in `[0, 1]` whenever `n ≥ 2` and
the series has non-zero variance (`ss_tot ≠ 0`); it equals `1` exactly
when `n ≤ 1`, and also when all count values are identical (zero
variance). -/
theorem c3_r2_range (y : List ℚ) :
    (2 ≤ y.length → ssTot y ≠ 0 →
      0 ≤ (fitTrend y).2.2 ∧ (fitTrend y).2.2 ≤ 1) ∧
    (y.length ≤ 1 → (fitTrend y).2.2 = 1) ∧
    ((∀ u ∈ y, ∀ v ∈ y, u = v) → (fitTrend y).2.2 = 1) := by
  refine ⟨?_, ?_, ?_⟩
  · intro hn ht
    have hlt : ¬ (y.length < 2) := by omega
    have hTT : 0 < sTT y.length := sTT_pos y.length hn
    have hres_nonneg : 0 ≤ ssRes y := Finset.sum_nonneg (fun i _ => sq_nonneg _)
    have htot_nonneg : 0 ≤ ssTot y := Finset.sum_nonneg (fun i _ => sq_nonneg _)
    have htot_pos : 0 < ssTot y := lt_of_le_of_ne htot_nonneg (Ne.symm ht)
    have hid := ssRes_identity y hTT.ne'
    have hr : (fitTrend y).2.2 = 1 - ssRes y / ssTot y := by
      simp [fitTrend, hlt, fitLinearTrend, r2, hn, ht]
    constructor
    · rw [hr]
      have hle : ssRes y ≤ ssTot y := by
        rw [hid]
        have : 0 ≤ sTY y ^ 2 / sTT y.length := div_nonneg (sq_nonneg _) hTT.le
        linarith
      have : ssRes y / ssTot y ≤ 1 := (div_le_one htot_pos).mpr hle
      linarith
    · rw [hr]
      have : 0 ≤ ssRes y / ssTot y := div_nonneg hres_nonneg htot_nonneg
      linarith
  · intro hn
    have hlt : y.length < 2 := by omega
    simp [fitTrend, hlt]
  · intro hall
    by_cases hlt : y.length < 2
    · simp [fitTrend, hlt]
    · push_neg at hlt
      have hn0 : y ≠ [] := by
        intro h
        rw [h] at hlt
        simp at hlt
      have hcmem : y.headI ∈ y := by
        cases y with
        | nil => exact absurd rfl hn0
        | cons a l => exact List.mem_cons_self a l
      have hval : ∀ i ∈ Finset.range y.length, yval y i = y.headI := by
        intro i hi
        have hi' := Finset.mem_range.mp hi
        have hmem : y.getD i 0 ∈ y := by
          rw [List.getD_eq_getElem y 0 hi']
          exact List.getElem_mem hi'
        exact hall _ hmem _ hcmem
      have hybar : ybar y = y.headI := by
        rw [ybar, Finset.sum_congr rfl hval]
        have hne : (y.length : ℚ) ≠ 0 := Nat.cast_ne_zero.mpr (by omega)
        rw [Finset.sum_const, Finset.card_range, nsmul_eq_mul]
        field_simp
      have htot : ssTot y = 0 := by
        rw [ssTot]
        apply Finset.sum_eq_zero
        intro i hi
        rw [hval i hi, hybar]
        ring
      have hsty : sTY y = 0 := by
        rw [sTY]
        apply Finset.sum_eq_zero
        intro i hi
        rw [hval i hi, hybar]
        ring
      have hslope : Forecast.slope y = 0 := by
        rw [Forecast.slope]
        split_ifs
        · rfl
        · rw [hsty]
          exact zero_div _
      have hres : ssRes y = 0 := by
        rw [ssRes]
        apply Finset.sum_eq_zero
        intro i hi
        rw [hval i hi, intercept, hslope, hybar]
        ring
      have hlt' : ¬ (y.length < 2) := by omega
      simp [fitTrend, hlt', fitLinearTrend, r2, hlt, htot, hres]

/-- Witness for C3: `r² ∈ [0, 1]` for the series `[1, 2, 4]` (non-zero
variance), `r² = 1` for the singleton `[7]` and the constant `[5, 5]`. -/
theorem c3_r2_range_witness :
    (0 ≤ (fitTrend [1, 2, 4]).2.2 ∧ (fitTrend [1, 2, 4]).2.2 ≤ 1) ∧
    (fitTrend [7]).2.2 = 1 ∧ (fitTrend [5, 5]).2.2 = 1 :=
  ⟨(c3_r2_range [1, 2, 4]).1 (by norm_num)
      (by norm_num [ssTot, ybar, yval, tbar, Finset.sum_range_succ]),
   (c3_r2_range [7]).2.1 (by norm_num),
   (c3_r2_range [5, 5]).2.2 (by
      intro u hu v hv
      simp at hu hv
      rw [hu, hv])⟩

/-- Witness for C5 at `a = 2, b = 5, n = 4, H = 3, k = 1`. -/
theorem c5_constant_step_witness :
    2 ≤ 3 ∧ 1 + 1 < 3 ∧
    ((predictFuture 2 5 4 3).getD (1 + 1) 0 - (predictFuture 2 5 4 3).getD 1 0 = 5 ∧
     (predictFuture 2 5 4 3).getD 1 0 = 2 + 5 * ((4 : ℚ) + (1 : ℚ) + 1)) :=
  ⟨by norm_num, by norm_num, c5_constant_step 2 5 4 3 1 (by norm_num) (by norm_num)⟩

/-- An ASCII digit has code point between 48 and 57. -/
lemma isDigit_toNat {c : Char} (h : c.isDigit = true) :
    48 ≤ c.toNat ∧ c.toNat ≤ 57 := by
  simp [Char.isDigit] at h
  exact h

/-- Any year parsed by the `20\d{2}` search lies in `[2000, 2099]`. -/
lemma findYear_some_range : ∀ (l : Str) (y : ℤ), findYear l = some y →
    2000 ≤ y ∧ y ≤ 2099
  | [], y, h => by simp [findYear] at h
  | [_], y, h => by simp [findYear] at h
  | [_, _], y, h => by simp [findYear] at h
  | [_, _, _], y, h => by simp [findYear] at h
  | c0 :: c1 :: c2 :: c3 :: t, y, h => by
    rw [findYear] at h
    split_ifs at h with hc
    · obtain ⟨_, _, hc2, hc3⟩ := hc
      obtain ⟨h2lo, h2hi⟩ := isDigit_toNat hc2
      obtain ⟨h3lo, h3hi⟩ := isDigit_toNat hc3
      injection h with h
      have e2lo : (48 : ℤ) ≤ c2.toNat := by exact_mod_cast h2lo
      have e2hi : (c2.toNat : ℤ) ≤ 57 := by exact_mod_cast h2hi
      have e3lo : (48 : ℤ) ≤ c3.toNat := by exact_mod_cast h3lo
      have e3hi : (c3.toNat : ℤ) ≤ 57 := by exact_mod_cast h3hi
      constructor <;> [linarith [h]; linarith [h]]
    · exact findYear_some_range (c1 :: c2 :: c3 :: t) y h

/-- Lists shorter than the pattern `20\d{2}` never match. -/
lemma findYear_short : ∀ (l : Str), l.length < 4 → findYear l = none
  | [], _ => rfl
  | [_], _ => rfl
  | [_, _], _ => rfl
  | [_, _, _], _ => rfl
  | _ :: _ :: _ :: _ :: t, h => by
    simp [List.length_cons] at h
    omega

/-- If the whole list has no `20\d{2}` match, neither has any suffix. -/
lemma findYear_append_none : ∀ (u w : Str), findYear (u ++ w) = none →
    findYear w = none
  | [], w, h => by simpa using h
  | a :: u', w, h => by
    by_cases hlen : (u' ++ w).length < 3
    · refine findYear_short w ?_
      have := List.length_append u' w
      omega
    · rcases hUW : u' ++ w with _ | ⟨c1, _ | ⟨c2, _ | ⟨c3, t⟩⟩⟩ <;>
        rw [hUW] at hlen <;> try simp at hlen
      rw [List.cons_append, hUW, findYear] at h
      split_ifs at h with hc
      all_goals first
        | (refine findYear_append_none u' w ?_
           rw [hUW]
           exact h)
        | simp at h

/-- A path without `/` is its own basename. -/
lemma basename_no_slash (p : Str) (h : '/' ∉ p) : basename p = p := by
  rw [basename, List.takeWhile_eq_self_iff.mpr, List.reverse_reverse]
  intro c hc
  simp only [ne_eq, decide_eq_true_eq]
  intro hceq
  rw [hceq] at hc
  exact h (List.mem_reverse.mp hc)

/-- Year resolution for one source fails exactly when the explicit year,
the name inference and the default year are all absent. -/
lemma resolveYear_none_iff (i : ℕ) (p : Str) (years : Option (List ℤ))
    (dflt : Option ℤ) :
    resolveYear i p years dflt = none ↔
      explicitYearAt i years = none ∧ inferYearFromFilename p = none ∧
        dflt = none := by
  rcases hE : explicitYearAt i years with _ | yE <;>
    rcases hI : inferYearFromFilename p with _ | yI <;>
      rcases hD : dflt with _ | yD <;>
        simp [resolveYear, hE, hI, hD]

/-- Any error of the year-normalisation loop is the path of a source whose
per-source resolution came up empty. -/
lemma normalizeYearsGo_error (years : Option (List ℤ)) (dflt : Option ℤ) :
    ∀ (i : ℕ) (ps : List Str) (e : Str),
      normalizeYearsGo years dflt i ps = .error e →
      ∃ j, ps[j]? = some e ∧ resolveYear (i + j) e years dflt = none
  | _, [], e, h => by simp [normalizeYearsGo] at h
  | i, p :: ps, e, h => by
    rw [normalizeYearsGo] at h
    rcases hR : resolveYear i p years dflt with _ | y <;> simp only [hR] at h
    · injection h with h
      subst h
      exact ⟨0, by simp, by simpa using hR⟩
    · rcases hGo : normalizeYearsGo years dflt (i + 1) ps with e' | ys <;>
        simp only [hGo] at h
      · injection h with h
        subst h
        obtain ⟨j, hj1, hj2⟩ := normalizeYearsGo_error years dflt (i + 1) ps _ hGo
        refine ⟨j + 1, by simpa using hj1, ?_⟩
        have heq : i + 1 + j = i + (j + 1) := by omega
        rw [heq] at hj2
        exact hj2
      · simp at h

/-- C6 counterexample: the name `data 1950.csv` contains the 4-digit
number 1950 ∈ [1900, 2100], yet with no explicit year the resolution
falls back to the default year 1234 instead of using 1950 — the code's
search pattern is `20\d{2}`, not any 4-digit year in `[1900, 2100]`. -/
theorem c6_counterexample :
    inferYearFromFilename ("data 1950.csv".toList) = none ∧
    resolveYear 0 ("data 1950.csv".toList) none (some 1234) = some 1234 ∧
    (1234 : ℤ) ≠ 1950 := by
  decide

/-- C6 (amended): a source name containing `20` followed by two digits is
inferred as that year (in `[2000, 2099]`, hence inside the `[1900, 2100]`
guard); with no explicit year, resolution uses the inferred year before
the default; resolution fails, and the normalisation loop reports a
source, exactly when explicit year, name inference and default are all
absent. -/
theorem c6_amended :
    (∀ (u v : Str) (c d : Char), c.isDigit = true → d.isDigit = true →
      '/' ∉ u ++ '2' :: '0' :: c :: d :: v →
      ∃ y : ℤ, inferYearFromFilename (u ++ '2' :: '0' :: c :: d :: v) = some y ∧
        2000 ≤ y ∧ y ≤ 2099) ∧
    (∀ (i : ℕ) (p : Str) (years : Option (List ℤ)) (dflt : Option ℤ) (y : ℤ),
      explicitYearAt i years = none → inferYearFromFilename p = some y →
      resolveYear i p years dflt = some y) ∧
    (∀ (i : ℕ) (p : Str) (years : Option (List ℤ)) (dflt : Option ℤ),
      resolveYear i p years dflt = none ↔
        explicitYearAt i years = none ∧ inferYearFromFilename p = none ∧
          dflt = none) ∧
    (∀ (paths : List Str) (years : Option (List ℤ)) (dflt : Option ℤ) (e : Str),
      normalizeYearsForInputs paths years dflt = .error e →
      ∃ j, paths[j]? = some e ∧ explicitYearAt j years = none ∧
        inferYearFromFilename e = none ∧ dflt = none) := by
  refine ⟨?_, ?_, ?_, ?_⟩
  · intro u v c d hc hd hs
    have hmatch : findYear ('2' :: '0' :: c :: d :: v) =
        some (2000 + 10 * ((c.toNat : ℤ) - 48) + ((d.toNat : ℤ) - 48)) := by
      rw [findYear, if_pos ⟨rfl, rfl, hc, hd⟩]
    have hne : findYear (u ++ '2' :: '0' :: c :: d :: v) ≠ none := by
      intro h
      have h0 := findYear_append_none u _ h
      rw [hmatch] at h0
      exact Option.noConfusion h0
    obtain ⟨y, hy⟩ := Option.ne_none_iff_exists'.mp hne
    obtain ⟨hlo, hhi⟩ := findYear_some_range _ y hy
    refine ⟨y, ?_, hlo, hhi⟩
    rw [inferYearFromFilename, basename_no_slash _ hs, hy]
    show (if 1900 ≤ y ∧ y ≤ 2100 then some y else none) = some y
    rw [if_pos ⟨by linarith, by linarith⟩]
  · intro i p years dflt y hE hI
    rw [resolveYear, hE, hI]
  · exact resolveYear_none_iff
  · intro paths years dflt e h
    obtain ⟨j, hj1, hj2⟩ := normalizeYearsGo_error years dflt 0 paths e h
    rw [Nat.zero_add] at hj2
    obtain ⟨hE, hI, hD⟩ := (resolveYear_none_iff j e years dflt).mp hj2
    exact ⟨j, hj1, hE, hI, hD⟩

/-- Witness for C6 (amended): the name `data 2024.csv` is inferred as a
year in `[2000, 2099]`. -/
theorem c6_amended_witness :
    ∃ y : ℤ,
      inferYearFromFilename
        ("data ".toList ++ '2' :: '0' :: '2' :: '4' :: ".csv".toList) = some y ∧
      2000 ≤ y ∧ y ≤ 2099 :=
  c6_amended.1 ("data ".toList) (".csv".toList) '2' '4' (by decide) (by decide)
    (by decide)

/-- Every row of a successful load survives the
`dropna(subset=["jumlah", "month_num", "tanggal"])` filter. -/
lemma loadAndTransform_ok_complete (p : Str) (t : WideTable) (year : ℤ)
    (rows : List LongRow) (h : loadAndTransform p t year = .ok rows) :
    ∀ r ∈ rows, rowComplete r = true := by
  simp only [loadAndTransform] at h
  split_ifs at h with h1 h2
  injection h with h
  intro r hr
  rw [← h, List.mem_insertionSort] at hr
  exact (List.mem_filter.mp hr).2

/-- C7 counterexample: a wide cell holding the numeric value `-5` is kept
by the loader, so the long-form output can contain a negative count. -/
theorem c7_counterexample :
    loadAndTransform ("a.csv".toList)
      ⟨["Kategori".toList, "Januari".toList], [⟨"A".toList, [some (-5)]⟩]⟩ 2024 =
      .ok [{ tipe := "A".toList, bulan := "Januari".toList, jumlah := some (-5),
             monthNum := some 1, tanggal := some (2024, 1) }] ∧
    ((-5 : ℚ) < 0) := by
  constructor
  · decide
  · norm_num

/-- C7 (amended): every row of the loader's long-form output has a
defined (coercible) numeric count, month index and date — rows failing
numeric coercion are discarded — but the count is not required to be
non-negative. -/
theorem c7_amended (path : Str) (table : WideTable) (year : ℤ)
    (rows : List LongRow) (h : loadAndTransform path table year = .ok rows) :
    ∀ r ∈ rows, (∃ q, r.jumlah = some q) ∧
      r.monthNum.isSome = true ∧ r.tanggal.isSome = true := by
  intro r hr
  have hc := loadAndTransform_ok_complete path table year rows h r hr
  simp only [rowComplete, Bool.and_eq_true] at hc
  exact ⟨Option.isSome_iff_exists.mp hc.1.1, hc.1.2, hc.2⟩

/-- Witness for C7 (amended) on a one-cell table, instantiated at its
single output row. -/
theorem c7_amended_witness :
    (∃ q, ({ tipe := "A".toList, bulan := "Januari".toList, jumlah := some 7,
             monthNum := some 1, tanggal := some (2024, 1) } : LongRow).jumlah =
        some q) ∧
    ({ tipe := "A".toList, bulan := "Januari".toList, jumlah := some 7,
       monthNum := some 1, tanggal := some (2024, 1) } : LongRow).monthNum.isSome
        = true ∧
    ({ tipe := "A".toList, bulan := "Januari".toList, jumlah := some 7,
       monthNum := some 1, tanggal := some (2024, 1) } : LongRow).tanggal.isSome
        = true :=
  c7_amended ("a.csv".toList)
    ⟨["Kategori".toList, "Januari".toList], [⟨"A".toList, [some 7]⟩]⟩ 2024
    [{ tipe := "A".toList, bulan := "Januari".toList, jumlah := some 7,
       monthNum := some 1, tanggal := some (2024, 1) }]
    (by decide) _ (List.mem_singleton.mpr rfl)

/-- C8 counterexample: both schema failures carry fixed messages that do
not mention the offending source (`data_a.csv` is not a substring of
either message). -/
theorem c8_counterexample :
    loadAndTransform ("data_a.csv".toList) ⟨["Kategori".toList], []⟩ 2024 =
        .error msgMinCols ∧
    ¬ ("data_a.csv".toList <:+: msgMinCols) ∧
    loadAndTransform ("data_a.csv".toList)
        ⟨["Kategori".toList, "Foo".toList], [⟨"A".toList, [some 1]⟩]⟩ 2024 =
        .error msgNoMonths ∧
    ¬ ("data_a.csv".toList <:+: msgNoMonths) := by
  refine ⟨by decide, by decide, by decide, by decide⟩

/-- C8 (amended): the loader fails exactly when the table has fewer than
two columns or no recognized month columns, and the failure message is
one of two fixed strings (describing the problem, naming no source). -/
theorem c8_amended (path : Str) (table : WideTable) (year : ℤ) :
    ((∃ e, loadAndTransform path table year = .error e) ↔
      ((cleanedHeader table).length < 2 ∨
        (recognizedMonths table).isEmpty = true)) ∧
    (∀ e, loadAndTransform path table year = .error e →
      e = msgMinCols ∨ e = msgNoMonths) := by
  constructor
  · constructor
    · rintro ⟨e, he⟩
      rw [loadAndTransform] at he
      split_ifs at he with h1 h2
      · exact Or.inl h1
      · exact Or.inr h2
    · intro hcond
      rw [loadAndTransform]
      split_ifs with h1 h2
      · exact ⟨msgMinCols, rfl⟩
      · exact ⟨msgNoMonths, rfl⟩
      · rcases hcond with hc | hc
        · exact absurd hc h1
        · exact absurd hc h2
  · intro e he
    rw [loadAndTransform] at he
    split_ifs at he
    · injection he with he
      exact Or.inl he.symm
    · injection he with he
      exact Or.inr he.symm

/-- Witness for C8 (amended): a one-column table fails. -/
theorem c8_amended_witness :
    ∃ e, loadAndTransform ("x.csv".toList) ⟨["Kategori".toList], []⟩ 2024 =
      .error e :=
  (c8_amended ("x.csv".toList) ⟨["Kategori".toList], []⟩ 2024).1.mpr (by decide)

/-- C9 counterexample: merging two sources that resolve to the same year
produces two observations of the same category with the same date — the
merged per-category dates are not strictly increasing. -/
theorem c9_counterexample :
    loadAndTransformMulti
      [("p1.csv".toList,
        ⟨["Kategori".toList, "Januari".toList], [⟨"A".toList, [some 5]⟩]⟩),
       ("p2.csv".toList,
        ⟨["Kategori".toList, "Januari".toList], [⟨"A".toList, [some 5]⟩]⟩)]
      (some [2024]) none =
      .ok [{ tipe := "A".toList, bulan := "Januari".toList, jumlah := some 5,
             monthNum := some 1, tanggal := some (2024, 1) },
           { tipe := "A".toList, bulan := "Januari".toList, jumlah := some 5,
             monthNum := some 1, tanggal := some (2024, 1) }] := by
  decide

/-- C9 (amended): the merged output is sorted non-decreasing by
(category, date); dates of one category need not be strictly increasing,
since two sources resolving to the same year contribute equal dates. -/
theorem c9_amended (inputs : List (Str × WideTable)) (years : Option (List ℤ))
    (dflt : Option ℤ) (rows : List LongRow)
    (h : loadAndTransformMulti inputs years dflt = .ok rows) :
    rows.Sorted rowLE2 := by
  rw [loadAndTransformMulti] at h
  split_ifs at h with h1
  split at h
  · exact absurd h (by simp)
  · split at h
    · exact absurd h (by simp)
    · injection h with h
      rw [← h]
      exact List.sorted_insertionSort rowLE2 _

/-- Witness for C9 (amended) on a one-source merge. -/
theorem c9_amended_witness :
    List.Sorted rowLE2
      [{ tipe := "A".toList, bulan := "Januari".toList, jumlah := some 5,
         monthNum := some 1, tanggal := some (2024, 1) }] :=
  c9_amended
    [("p1.csv".toList,
      ⟨["Kategori".toList, "Januari".toList], [⟨"A".toList, [some 5]⟩]⟩)]
    (some [2024]) none _ (by decide)

/-- C10: when the explicit-years list has length at least 2 and is
shorter or longer than the list of sources, normalisation does not fail
on the mismatch: a source at index `i` within the list takes `years[i]`,
surplus years are ignored, a source beyond the list's end falls back to
name inference then the default year, and an error names a source only
when inference and default are both absent for it. -/
theorem c10_year_list_mismatch (ys : List ℤ) (h2 : 2 ≤ ys.length) :
    (∀ (i : ℕ) (p : Str) (dflt : Option ℤ), i < ys.length →
      resolveYear i p (some ys) dflt = ys[i]?) ∧
    (∀ (i : ℕ) (p : Str) (dflt : Option ℤ), ys.length ≤ i →
      resolveYear i p (some ys) dflt =
        (match inferYearFromFilename p with
         | some y => some y
         | none => dflt)) ∧
    (∀ (paths : List Str) (dflt : Option ℤ) (e : Str),
      normalizeYearsForInputs paths (some ys) dflt = .error e →
      inferYearFromFilename e = none ∧ dflt = none) := by
  have hne1 : ys.length ≠ 1 := by omega
  refine ⟨?_, ?_, ?_⟩
  · intro i p dflt hi
    have hE : explicitYearAt i (some ys) = ys[i]? := by
      simp [explicitYearAt, hne1]
    rcases hy : ys[i]? with _ | v
    · rw [List.getElem?_eq_none_iff] at hy
      omega
    · rw [resolveYear, hE, hy]
  · intro i p dflt hle
    have hE : explicitYearAt i (some ys) = none := by
      simp [explicitYearAt, hne1, List.getElem?_eq_none hle]
    rw [resolveYear, hE]
  · intro paths dflt e h
    obtain ⟨j, _, hj2⟩ := normalizeYearsGo_error (some ys) dflt 0 paths e h
    rw [Nat.zero_add] at hj2
    obtain ⟨_, hI, hD⟩ := (resolveYear_none_iff j e (some ys) dflt).mp hj2
    exact ⟨hI, hD⟩

/-- Witness for C10 with the two-year list `[2001, 2002]`. -/
theorem c10_year_list_mismatch_witness :
    resolveYear 0 ("a.csv".toList) (some [2001, 2002]) none =
      ([2001, 2002] : List ℤ)[0]? :=
  (c10_year_list_mismatch [2001, 2002] (by norm_num)).1 0 ("a.csv".toList) none
    (by norm_num)

end Forecast
